import Mathlib

/-!
Shallow embedding of the pharmacokinetic core of the DrugConcentrationApp
repository (src/docs/pharmacokinetics.js and the dose-aggregation loop of
src/docs/app.js).  JavaScript numbers are modelled as real numbers and
`Math.exp` as `Real.exp`; `null` fields of the parameter records become
`Option ℝ`.  Division is Lean's total real division (division by zero
yields 0 where JavaScript would produce `Infinity`/`NaN`); every place
where this matters is noted at the corresponding theorem.
-/

namespace DrugApp

/-- Kinetic parameter record: one per (substance, route) pair, mirroring the
entries of `DrugParameters.getDrugParams`.  `none` models a `null` or absent
field in the JavaScript object. -/
structure DrugParams where
  bioavailability : ℝ
  absorptionRate : ℝ
  eliminationRate : Option ℝ
  volumeOfDistribution : ℝ
  halfLife : Option ℝ
  eliminationCapacity : Option ℝ
  tmax : ℝ
  nonLinear : Bool

/-- `DrugParameters.getDrugParams(drugType, route)`: the static parameter
table; `params[drugType]?.[route] || null` becomes an `Option`. -/
def getDrugParams (drugType route : String) : Option DrugParams :=
  if drugType = "alcohol" then
    if route = "oral" then
      some ⟨0.85, 1.0, none, 0.53, none, some 10, 0.75, false⟩
    else none
  else if drugType = "thc" then
    if route = "oral" then
      some ⟨0.08, 0.5, some 0.021, 2, some 33, none, 1.5, false⟩
    else if route = "inhaled" then
      some ⟨0.25, 12, some 0.021, 2, some 33, none, 0.17, false⟩
    else if route = "liquid" then
      some ⟨0.15, 2, some 0.021, 2, some 33, none, 0.5, false⟩
    else none
  else if drugType = "cbd" then
    if route = "oral" then
      some ⟨0.06, 0.5, some 0.038, 32, some 18, none, 2, false⟩
    else if route = "inhaled" then
      some ⟨0.31, 12, some 0.038, 32, some 18, none, 0.25, false⟩
    else if route = "liquid" then
      some ⟨0.15, 2, some 0.038, 32, some 18, none, 1, false⟩
    else none
  else if drugType = "mdma" then
    if route = "oral" then
      some ⟨0.75, 0.5, some 0.087, 4, some 8, none, 2, true⟩
    else none
  else if drugType = "psilocybin" then
    if route = "oral" then
      some ⟨0.53, 0.5, some 0.231, 14, some 3, none, 2, false⟩
    else none
  else none

/-- `DrugParameters.convertDose(dose, unit, drugType)`: dose-unit
normalization to milligrams. -/
noncomputable def convertDose (dose : ℝ) (unit drugType : String) : ℝ :=
  if unit = "g" then dose * 1000
  else if unit = "ml" then
    if drugType = "alcohol" then dose * 789 * 0.4 else dose
  else if unit = "drinks" then
    if drugType = "alcohol" then dose * 14000 else dose
  else dose

/-- `PharmacokineticCalculator.oneCompartmentModel`: first-order absorption
and elimination.  A `null` elimination rate would coerce to 0 in the
JavaScript arithmetic, hence `getD 0`. -/
noncomputable def oneCompartmentModel (dose : ℝ) (p : DrugParams)
    (timeHours bodyWeight : ℝ) : ℝ :=
  let F := p.bioavailability
  let ka := p.absorptionRate
  let ke := p.eliminationRate.getD 0
  let Vd := p.volumeOfDistribution * bodyWeight
  let t := timeHours
  if t ≤ 0 then 0
  else
    max 0 ((F * dose * ka) / (Vd * (ka - ke)) *
      (Real.exp (-ke * t) - Real.exp (-ka * t)))

/-- `PharmacokineticCalculator.alcoholModel`: empirical BAC model with an
exponential absorption phase up to `tmax` and linear (zero-order)
elimination afterwards, at the hard-coded rate of 15 mg/dL per hour. -/
noncomputable def alcoholModel (dose : ℝ) (p : DrugParams)
    (timeHours bodyWeight : ℝ) : ℝ :=
  let F := p.bioavailability
  let t := timeHours
  if t ≤ 0 then 0
  else
    let doseGrams := dose / 1000
    let effectiveDose := doseGrams * F
    let drinksEquivalent := effectiveDose / 14
    let peakBAC := drinksEquivalent * 30 * (82 / bodyWeight)
    if t ≤ p.tmax then
      peakBAC * (1 - Real.exp (-3 * t / p.tmax))
    else
      max 0 (peakBAC - 15 * (t - p.tmax))

/-- `PharmacokineticCalculator.mdmaModel`: empirical model pinned to
200 ng/mL peak for a 100 mg dose and 70 kg body weight, reshaped over the
one-compartment exponential difference. -/
noncomputable def mdmaModel (dose : ℝ) (p : DrugParams)
    (timeHours bodyWeight : ℝ) : ℝ :=
  let F := p.bioavailability
  let t := timeHours
  if t ≤ 0 then 0
  else
    let peakConcentration := (dose * F / 100) * 200 * (70 / bodyWeight)
    let ke := 0.693 / p.halfLife.getD 0
    let ka := 3 / p.tmax
    let maxCoeff := ka / (ka - ke)
    max 0 (peakConcentration / maxCoeff *
      (Real.exp (-ke * t) - Real.exp (-ka * t)))

/-- `PharmacokineticCalculator.psilocybinModel`: structurally identical to
the MDMA model with calibration triple (30 mg, 21 ng/mL, 70 kg). -/
noncomputable def psilocybinModel (dose : ℝ) (p : DrugParams)
    (timeHours bodyWeight : ℝ) : ℝ :=
  let F := p.bioavailability
  let t := timeHours
  if t ≤ 0 then 0
  else
    let peakConcentration := (dose * F / 30) * 21 * (70 / bodyWeight)
    let ke := 0.693 / p.halfLife.getD 0
    let ka := 3 / p.tmax
    let maxCoeff := ka / (ka - ke)
    max 0 (peakConcentration / maxCoeff *
      (Real.exp (-ke * t) - Real.exp (-ka * t)))

/-- The age adjustment in `calculateConcentration`: for age > 65 the
elimination rate is scaled by 0.8.  The JavaScript guard
`if (adjustedParams.eliminationRate)` is a truthiness test, so a `null`
or zero rate is left untouched. -/
noncomputable def ageAdjust (p : DrugParams) (age : ℝ) : DrugParams :=
  let ageAdjustment : ℝ := if 65 < age then 0.8 else 1.0
  match p.eliminationRate with
  | none => p
  | some r =>
      if r = 0 then p
      else { p with eliminationRate := some (r * ageAdjustment) }

/-- `PharmacokineticCalculator.calculateConcentration`: parameter lookup,
age adjustment, then static dispatch to the per-substance model. -/
noncomputable def calculateConcentration (dose : ℝ) (drugType route : String)
    (timeHours bodyWeight age : ℝ) : ℝ :=
  match getDrugParams drugType route with
  | none => 0
  | some p =>
      let adjustedParams := ageAdjust p age
      if drugType = "alcohol" then
        alcoholModel dose adjustedParams timeHours bodyWeight
      else if drugType = "mdma" then
        mdmaModel dose adjustedParams timeHours bodyWeight
      else if drugType = "psilocybin" then
        psilocybinModel dose adjustedParams timeHours bodyWeight
      else
        oneCompartmentModel dose adjustedParams timeHours bodyWeight

/-- A dose entry as built by the UI: substance, route, raw dose quantity,
unit, and administration time in milliseconds (JavaScript `Date.getTime`). -/
structure DoseEntry where
  drug : String
  route : String
  dose : ℝ
  unit : String
  time : ℝ

/-- One dose's contribution to the combined concentration at clock time
`currentTime` (ms), mirroring the body of the per-dose loop in
`DrugConcentrationApp.generateConcentrationPlot`: future doses
(negative elapsed time) contribute 0. -/
noncomputable def doseContribution (d : DoseEntry)
    (currentTime bodyWeight age : ℝ) : ℝ :=
  let timeDiffHours := (currentTime - d.time) / (1000 * 60 * 60)
  if 0 ≤ timeDiffHours then
    calculateConcentration (convertDose d.dose d.unit d.drug) d.drug d.route
      timeDiffHours bodyWeight age
  else 0

/-- The combined concentration of a list of doses of one substance at one
sample time: the additive superposition loop of
`generateConcentrationPlot`. -/
noncomputable def combinedConcentration (doses : List DoseEntry)
    (currentTime bodyWeight age : ℝ) : ℝ :=
  doses.foldl (fun acc d => acc + doseContribution d currentTime bodyWeight age) 0

/-- `DrugNormalization.getImpairmentLevel`: ascending threshold bands on the
alcohol-equivalent BAC. -/
noncomputable def getImpairmentLevel (alcoholEquivalentBAC : ℝ) : String :=
  if alcoholEquivalentBAC < 10 then "Minimal"
  else if alcoholEquivalentBAC < 30 then "Mild"
  else if alcoholEquivalentBAC < 50 then "Moderate"
  else if alcoholEquivalentBAC < 80 then "Significant"
  else if alcoholEquivalentBAC < 150 then "Severe"
  else "Dangerous"

/-- Severity order on the impairment categories, for stating monotonicity:
Minimal < Mild < Moderate < Significant < Severe < Dangerous.  Unknown
strings (never produced) rank highest. -/
def severityRank (level : String) : ℕ :=
  if level = "Minimal" then 0
  else if level = "Mild" then 1
  else if level = "Moderate" then 2
  else if level = "Significant" then 3
  else if level = "Severe" then 4
  else 5

/-- Modelled from the spec: the limiting form
`C(t) = (F·D·ka/Vd)·t·e^(−ka·t)` that the spec requires a guarded
implementation of the one-compartment model to use when `ka = ke`.  This
branch is absent from `oneCompartmentModel` in the source; the definition
exists only to compare the code's behaviour against it. -/
noncomputable def oneCompartmentLimitingForm (dose : ℝ) (p : DrugParams)
    (timeHours bodyWeight : ℝ) : ℝ :=
  let F := p.bioavailability
  let ka := p.absorptionRate
  let Vd := p.volumeOfDistribution * bodyWeight
  let t := timeHours
  if t ≤ 0 then 0
  else (F * dose * ka / Vd) * t * Real.exp (-ka * t)

/-! ### Helper lemmas -/

lemma ageAdjust_none (p : DrugParams) (age : ℝ) (h : p.eliminationRate = none) :
    ageAdjust p age = p := by
  unfold ageAdjust
  rw [h]

lemma combinedConcentration_aux (f : DoseEntry → ℝ) (l : List DoseEntry) :
    ∀ i : ℝ, l.foldl (fun acc d => acc + f d) i = i + (l.map f).sum := by
  induction l with
  | nil => intro i; simp
  | cons d tl ih => intro i; simp [ih, add_assoc]

lemma combinedConcentration_eq_sum (doses : List DoseEntry) (T W a : ℝ) :
    combinedConcentration doses T W a =
      (doses.map (fun d => doseContribution d T W a)).sum := by
  unfold combinedConcentration
  rw [combinedConcentration_aux]
  ring

lemma oneCompartmentModel_nonneg (dose : ℝ) (p : DrugParams) (t W : ℝ) :
    0 ≤ oneCompartmentModel dose p t W := by
  simp only [oneCompartmentModel]
  split_ifs
  · exact le_refl 0
  · exact le_max_left _ _

lemma mdmaModel_nonneg (dose : ℝ) (p : DrugParams) (t W : ℝ) :
    0 ≤ mdmaModel dose p t W := by
  simp only [mdmaModel]
  split_ifs
  · exact le_refl 0
  · exact le_max_left _ _

lemma psilocybinModel_nonneg (dose : ℝ) (p : DrugParams) (t W : ℝ) :
    0 ≤ psilocybinModel dose p t W := by
  simp only [psilocybinModel]
  split_ifs
  · exact le_refl 0
  · exact le_max_left _ _

lemma alcoholModel_nonneg (dose : ℝ) (p : DrugParams) (t W : ℝ)
    (hd : 0 ≤ dose) (hF : 0 ≤ p.bioavailability) (htm : 0 < p.tmax) (hW : 0 < W) :
    0 ≤ alcoholModel dose p t W := by
  simp only [alcoholModel]
  split_ifs with h1 h2
  · exact le_refl 0
  · have ht : 0 < t := lt_of_not_le h1
    have hexp : Real.exp (-3 * t / p.tmax) ≤ 1 := by
      rw [Real.exp_le_one_iff]
      apply div_nonpos_of_nonpos_of_nonneg <;> linarith
    have hpk : 0 ≤ dose / 1000 * p.bioavailability / 14 * 30 * (82 / W) := by positivity
    exact mul_nonneg hpk (by linarith)
  · exact le_max_left _ _

lemma oneCompartmentModel_of_nonpos (dose : ℝ) (p : DrugParams) (t W : ℝ)
    (h : t ≤ 0) : oneCompartmentModel dose p t W = 0 := by
  simp only [oneCompartmentModel, if_pos h]

lemma alcoholModel_of_nonpos (dose : ℝ) (p : DrugParams) (t W : ℝ)
    (h : t ≤ 0) : alcoholModel dose p t W = 0 := by
  simp only [alcoholModel, if_pos h]

lemma mdmaModel_of_nonpos (dose : ℝ) (p : DrugParams) (t W : ℝ)
    (h : t ≤ 0) : mdmaModel dose p t W = 0 := by
  simp only [mdmaModel, if_pos h]

lemma psilocybinModel_of_nonpos (dose : ℝ) (p : DrugParams) (t W : ℝ)
    (h : t ≤ 0) : psilocybinModel dose p t W = 0 := by
  simp only [psilocybinModel, if_pos h]

lemma oneCompartmentModel_zero_dose (p : DrugParams) (t W : ℝ) :
    oneCompartmentModel 0 p t W = 0 := by
  simp [oneCompartmentModel]

lemma mdmaModel_zero_dose (p : DrugParams) (t W : ℝ) :
    mdmaModel 0 p t W = 0 := by
  simp [mdmaModel]

lemma psilocybinModel_zero_dose (p : DrugParams) (t W : ℝ) :
    psilocybinModel 0 p t W = 0 := by
  simp [psilocybinModel]

lemma alcoholModel_zero_dose (p : DrugParams) (t W : ℝ) :
    alcoholModel 0 p t W = 0 := by
  simp only [alcoholModel]
  split_ifs with h1 h2
  · rfl
  · simp
  · have ht : p.tmax < t := lt_of_not_le h2
    have hpk : (0 : ℝ) / 1000 * p.bioavailability / 14 * 30 * (82 / W) = 0 := by
      ring
    rw [hpk]
    apply max_eq_left
    linarith

lemma calcConc_none (d r : String) (h : getDrugParams d r = none)
    (dose t W a : ℝ) : calculateConcentration dose d r t W a = 0 := by
  unfold calculateConcentration
  rw [h]

lemma ageAdjust_bioavailability (p : DrugParams) (age : ℝ) :
    (ageAdjust p age).bioavailability = p.bioavailability := by
  unfold ageAdjust
  rcases h : p.eliminationRate with _ | r
  · rfl
  · dsimp only
    split_ifs <;> rfl

lemma ageAdjust_halfLife (p : DrugParams) (age : ℝ) :
    (ageAdjust p age).halfLife = p.halfLife := by
  unfold ageAdjust
  rcases h : p.eliminationRate with _ | r
  · rfl
  · dsimp only
    split_ifs <;> rfl

lemma ageAdjust_tmax (p : DrugParams) (age : ℝ) :
    (ageAdjust p age).tmax = p.tmax := by
  unfold ageAdjust
  rcases h : p.eliminationRate with _ | r
  · rfl
  · dsimp only
    split_ifs <;> rfl

lemma mdmaModel_congr (dose t W : ℝ) (p q : DrugParams)
    (hF : p.bioavailability = q.bioavailability)
    (hhl : p.halfLife = q.halfLife) (htm : p.tmax = q.tmax) :
    mdmaModel dose p t W = mdmaModel dose q t W := by
  simp only [mdmaModel, hF, hhl, htm]

lemma psilocybinModel_congr (dose t W : ℝ) (p q : DrugParams)
    (hF : p.bioavailability = q.bioavailability)
    (hhl : p.halfLife = q.halfLife) (htm : p.tmax = q.tmax) :
    psilocybinModel dose p t W = psilocybinModel dose q t W := by
  simp only [psilocybinModel, hF, hhl, htm]

lemma mdmaModel_ageAdjust (dose t W age : ℝ) (p : DrugParams) :
    mdmaModel dose (ageAdjust p age) t W = mdmaModel dose p t W :=
  mdmaModel_congr dose t W _ p (ageAdjust_bioavailability p age)
    (ageAdjust_halfLife p age) (ageAdjust_tmax p age)

lemma psilocybinModel_ageAdjust (dose t W age : ℝ) (p : DrugParams) :
    psilocybinModel dose (ageAdjust p age) t W = psilocybinModel dose p t W :=
  psilocybinModel_congr dose t W _ p (ageAdjust_bioavailability p age)
    (ageAdjust_halfLife p age) (ageAdjust_tmax p age)

lemma calcConc_alcohol_oral (dose t W age : ℝ) :
    calculateConcentration dose "alcohol" "oral" t W age =
      alcoholModel dose ⟨0.85, 1.0, none, 0.53, none, some 10, 0.75, false⟩ t W :=
  rfl

lemma calcConc_mdma_oral (dose t W age : ℝ) :
    calculateConcentration dose "mdma" "oral" t W age =
      mdmaModel dose
        (ageAdjust ⟨0.75, 0.5, some 0.087, 4, some 8, none, 2, true⟩ age) t W :=
  rfl

lemma calcConc_psilocybin_oral (dose t W age : ℝ) :
    calculateConcentration dose "psilocybin" "oral" t W age =
      psilocybinModel dose
        (ageAdjust ⟨0.53, 0.5, some 0.231, 14, some 3, none, 2, false⟩ age) t W :=
  rfl

lemma alcohol_table_params (route : String) (p : DrugParams)
    (hp : getDrugParams "alcohol" route = some p) :
    p.bioavailability = 0.85 ∧ p.tmax = 0.75 ∧ p.eliminationRate = none := by
  by_cases hr : route = "oral"
  · subst hr
    simp only [getDrugParams, if_pos rfl, reduceIte, Option.some.injEq] at hp
    rw [← hp]
    exact ⟨rfl, rfl, rfl⟩
  · simp [getDrugParams, hr] at hp

lemma alcoholModel_alcoholParams (dose t W : ℝ) :
    alcoholModel dose ⟨0.85, 1.0, none, 0.53, none, some 10, 0.75, false⟩ t W =
      if t ≤ 0 then 0
      else if t ≤ 0.75 then
        dose / 1000 * 0.85 / 14 * 30 * (82 / W) * (1 - Real.exp (-3 * t / 0.75))
      else max 0 (dose / 1000 * 0.85 / 14 * 30 * (82 / W) - 15 * (t - 0.75)) :=
  rfl

lemma mdmaModel_mdmaParams (dose t W : ℝ) :
    mdmaModel dose ⟨0.75, 0.5, some 0.087, 4, some 8, none, 2, true⟩ t W =
      if t ≤ 0 then 0
      else max 0 (dose * 0.75 / 100 * 200 * (70 / W) / (3 / 2 / (3 / 2 - 0.693 / 8)) *
        (Real.exp (-(0.693 / 8) * t) - Real.exp (-(3 / 2) * t))) :=
  rfl

lemma exp_three_lt : Real.exp 3 < 21 := by
  have h1 : Real.exp 3 = Real.exp 1 * Real.exp 1 * Real.exp 1 := by
    rw [← Real.exp_add, ← Real.exp_add]
    norm_num
  nlinarith [Real.exp_one_lt_d9, Real.exp_pos 1]

lemma exp_neg_three_gt : (1 : ℝ) / 170 < Real.exp (-3) := by
  rw [Real.exp_neg, one_div]
  rw [inv_lt_inv₀ (by norm_num) (Real.exp_pos 3)]
  linarith [exp_three_lt]

lemma exp_neg_three_le : Real.exp (-3) ≤ 1 / 4 := by
  rw [Real.exp_neg, one_div]
  apply inv_anti₀ (by norm_num)
  linarith [Real.add_one_le_exp 3]

/-! ### Claim theorems -/

/-- C6: for every (substance, route) combination with no entry in the
parameter table, `getDrugParams` returns the defined not-found result
(`none`) and `calculateConcentration` returns 0 rather than raising an
error; unsupported combinations never fail. -/
theorem calculateConcentration_unknown_combo (d r : String)
    (h : getDrugParams d r = none) (dose t W a : ℝ) :
    calculateConcentration dose d r t W a = 0 := by
  unfold calculateConcentration
  rw [h]

/-- Witness for C6 at the unsupported combination (mdma, inhaled). -/
theorem calculateConcentration_unknown_combo_witness :
    getDrugParams "mdma" "inhaled" = none ∧
      calculateConcentration 100 "mdma" "inhaled" 1 70 25 = 0 := by
  have h : getDrugParams "mdma" "inhaled" = none := by simp [getDrugParams]
  exact ⟨h, calculateConcentration_unknown_combo "mdma" "inhaled" h 100 1 70 25⟩

/-- C7: `convertDose` multiplies by 1000 for unit g; by 789·0.4 for ml of
alcohol; by 14000 for drinks of alcohol; and every other unit/substance
combination (including mg, and ml/drinks for non-alcohol substances) is
returned unchanged, with no error. -/
theorem convertDose_spec (x : ℝ) (s : String) :
    convertDose x "g" s = x * 1000 ∧
    convertDose x "ml" "alcohol" = x * 789 * 0.4 ∧
    convertDose x "drinks" "alcohol" = x * 14000 ∧
    (s ≠ "alcohol" → convertDose x "ml" s = x ∧ convertDose x "drinks" s = x) ∧
    (∀ u : String, u ≠ "g" → u ≠ "ml" → u ≠ "drinks" → convertDose x u s = x) := by
  refine ⟨by simp [convertDose], by simp [convertDose], by simp [convertDose], ?_, ?_⟩
  · intro hs
    constructor <;> simp [convertDose, hs]
  · intro u h1 h2 h3
    simp [convertDose, h1, h2, h3]

/-- Witness for C7 at x = 2, substance thc, unit mg. -/
theorem convertDose_spec_witness :
    convertDose 2 "g" "thc" = 2 * 1000 ∧ convertDose 2 "ml" "thc" = 2 ∧
      convertDose 2 "mg" "thc" = 2 :=
  ⟨(convertDose_spec 2 "thc").1,
   ((convertDose_spec 2 "thc").2.2.2.1 (by decide)).1,
   (convertDose_spec 2 "thc").2.2.2.2 "mg" (by decide) (by decide) (by decide)⟩

/-- C8: `getImpairmentLevel` maps a total alcohol-equivalent value to one of
the six categories via the ascending bands <10, <30, <50, <80, <150, else
Dangerous, and is monotone: a smaller input is never classified as more
severe than a larger one. -/
theorem getImpairmentLevel_spec (t t1 t2 : ℝ) :
    (t < 10 → getImpairmentLevel t = "Minimal") ∧
    (10 ≤ t → t < 30 → getImpairmentLevel t = "Mild") ∧
    (30 ≤ t → t < 50 → getImpairmentLevel t = "Moderate") ∧
    (50 ≤ t → t < 80 → getImpairmentLevel t = "Significant") ∧
    (80 ≤ t → t < 150 → getImpairmentLevel t = "Severe") ∧
    (150 ≤ t → getImpairmentLevel t = "Dangerous") ∧
    (t1 ≤ t2 →
      severityRank (getImpairmentLevel t1) ≤ severityRank (getImpairmentLevel t2)) := by
  refine ⟨?_, ?_, ?_, ?_, ?_, ?_, ?_⟩
  · intro h; simp [getImpairmentLevel, h]
  · intro h1 h2
    unfold getImpairmentLevel
    rw [if_neg (by linarith), if_pos h2]
  · intro h1 h2
    unfold getImpairmentLevel
    rw [if_neg (by linarith), if_neg (by linarith), if_pos h2]
  · intro h1 h2
    unfold getImpairmentLevel
    rw [if_neg (by linarith), if_neg (by linarith), if_neg (by linarith), if_pos h2]
  · intro h1 h2
    unfold getImpairmentLevel
    rw [if_neg (by linarith), if_neg (by linarith), if_neg (by linarith),
      if_neg (by linarith), if_pos h2]
  · intro h1
    unfold getImpairmentLevel
    rw [if_neg (by linarith), if_neg (by linarith), if_neg (by linarith),
      if_neg (by linarith), if_neg (by linarith)]
  · intro h12
    unfold getImpairmentLevel
    split_ifs <;> simp [severityRank] <;> linarith

/-- Witness for C8: band membership and monotonicity at concrete inputs. -/
theorem getImpairmentLevel_spec_witness :
    getImpairmentLevel 25 = "Mild" ∧
      severityRank (getImpairmentLevel 25) ≤ severityRank (getImpairmentLevel 90) :=
  ⟨(getImpairmentLevel_spec 25 25 90).2.1 (by norm_num) (by norm_num),
   (getImpairmentLevel_spec 25 25 90).2.2.2.2.2.2 (by norm_num)⟩

/-- C10: the alcohol model never reads the profile's `eliminationCapacity`
field (changing it leaves the result unchanged for every dose, time and
body weight), and its elimination phase decays at the hard-coded rate of
15 mg/dL per hour from the computed peak. -/
theorem alcoholModel_capacity_independent (p : DrugParams) (c : Option ℝ)
    (dose t W : ℝ) :
    alcoholModel dose { p with eliminationCapacity := c } t W =
      alcoholModel dose p t W ∧
    (0 < t → p.tmax < t → alcoholModel dose p t W =
      max 0 (dose / 1000 * p.bioavailability / 14 * 30 * (82 / W)
        - 15 * (t - p.tmax))) := by
  constructor
  · rfl
  · intro h1 h2
    unfold alcoholModel
    rw [if_neg (by linarith), if_neg (by linarith)]

/-- Witness for C10: the alcohol-oral profile with its capacity field
overwritten to 999 gives the same BAC, and the elimination phase at t = 2
matches the 15 mg/dL/hr linear decay. -/
theorem alcoholModel_capacity_independent_witness :
    alcoholModel 14000 ⟨0.85, 1.0, none, 0.53, none, some 999, 0.75, false⟩ 2 82 =
      alcoholModel 14000 ⟨0.85, 1.0, none, 0.53, none, some 10, 0.75, false⟩ 2 82 ∧
    alcoholModel 14000 ⟨0.85, 1.0, none, 0.53, none, some 10, 0.75, false⟩ 2 82 =
      max 0 (14000 / 1000 * 0.85 / 14 * 30 * (82 / 82) - 15 * (2 - 0.75)) :=
  ⟨(alcoholModel_capacity_independent
      ⟨0.85, 1.0, none, 0.53, none, some 10, 0.75, false⟩ (some 999) 14000 2 82).1,
   (alcoholModel_capacity_independent
      ⟨0.85, 1.0, none, 0.53, none, some 10, 0.75, false⟩ (some 999) 14000 2 82).2
      (by norm_num) (by norm_num)⟩

/-- C1: for every valid (substance, route, dose, bodyWeight, age),
`calculateConcentration` is non-negative at every elapsed time, and is
exactly 0 whenever the elapsed time is ≤ 0 or the dose is 0. -/
theorem calculateConcentration_nonneg (drugType route : String)
    (dose t W age : ℝ) (hdose : 0 ≤ dose) (hW : 0 < W) :
    0 ≤ calculateConcentration dose drugType route t W age ∧
    (t ≤ 0 → calculateConcentration dose drugType route t W age = 0) ∧
    (dose = 0 → calculateConcentration dose drugType route t W age = 0) := by
  rcases hp : getDrugParams drugType route with _ | p
  · simp [calculateConcentration, hp]
  · simp only [calculateConcentration, hp]
    split_ifs with hA hM hP
    · subst hA
      obtain ⟨hF, htm, hke⟩ := alcohol_table_params route p hp
      rw [ageAdjust_none p age hke]
      refine ⟨alcoholModel_nonneg dose p t W hdose (by rw [hF]; norm_num)
          (by rw [htm]; norm_num) hW, fun h => alcoholModel_of_nonpos dose p t W h,
          fun h => ?_⟩
      rw [h]
      exact alcoholModel_zero_dose p t W
    · refine ⟨mdmaModel_nonneg dose _ t W,
          fun h => mdmaModel_of_nonpos dose _ t W h, fun h => ?_⟩
      rw [h]
      exact mdmaModel_zero_dose _ t W
    · refine ⟨psilocybinModel_nonneg dose _ t W,
          fun h => psilocybinModel_of_nonpos dose _ t W h, fun h => ?_⟩
      rw [h]
      exact psilocybinModel_zero_dose _ t W
    · refine ⟨oneCompartmentModel_nonneg dose _ t W,
          fun h => oneCompartmentModel_of_nonpos dose _ t W h, fun h => ?_⟩
      rw [h]
      exact oneCompartmentModel_zero_dose _ t W

/-- Witness for C1: oral MDMA, 150 mg, 70 kg, age 25; non-negative at
t = 3 h, zero at t = −1 h, and zero at dose 0. -/
theorem calculateConcentration_nonneg_witness :
    0 ≤ calculateConcentration 150 "mdma" "oral" 3 70 25 ∧
      calculateConcentration 150 "mdma" "oral" (-1) 70 25 = 0 ∧
      calculateConcentration 0 "mdma" "oral" 3 70 25 = 0 :=
  ⟨(calculateConcentration_nonneg "mdma" "oral" 150 3 70 25 (by norm_num)
      (by norm_num)).1,
   (calculateConcentration_nonneg "mdma" "oral" 150 (-1) 70 25 (by norm_num)
      (by norm_num)).2.1 (by norm_num),
   (calculateConcentration_nonneg "mdma" "oral" 0 3 70 25 (by norm_num)
      (by norm_num)).2.2 rfl⟩

/-- C5: the per-substance aggregation of `generateConcentrationPlot` is
additive superposition: the combined series of a list of doses splits as a
sum, a future dose contributes 0, and two simultaneous identical doses
yield exactly twice the single-dose value at every sample time. -/
theorem combinedConcentration_superposition :
    (∀ (ds1 ds2 : List DoseEntry) (T W a : ℝ),
      combinedConcentration (ds1 ++ ds2) T W a =
        combinedConcentration ds1 T W a + combinedConcentration ds2 T W a) ∧
    (∀ (d : DoseEntry) (T W a : ℝ),
      combinedConcentration [d, d] T W a = 2 * combinedConcentration [d] T W a) ∧
    (∀ (d : DoseEntry) (T W a : ℝ), T < d.time → doseContribution d T W a = 0) := by
  refine ⟨?_, ?_, ?_⟩
  · intro ds1 ds2 T W a
    simp [combinedConcentration_eq_sum]
  · intro d T W a
    simp [combinedConcentration_eq_sum]
    ring
  · intro d T W a h
    unfold doseContribution
    rw [if_neg]
    rw [not_le]
    apply div_neg_of_neg_of_pos
    · linarith
    · norm_num

/-- Witness for C5: two identical simultaneous THC doses double the curve,
and a dose one hour in the future contributes 0 now. -/
theorem combinedConcentration_superposition_witness :
    combinedConcentration
        [⟨"thc", "oral", 5, "mg", 0⟩, ⟨"thc", "oral", 5, "mg", 0⟩] 3600000 70 25 =
      2 * combinedConcentration [⟨"thc", "oral", 5, "mg", 0⟩] 3600000 70 25 ∧
    doseContribution ⟨"thc", "oral", 5, "mg", 7200000⟩ 3600000 70 25 = 0 :=
  ⟨combinedConcentration_superposition.2.1 ⟨"thc", "oral", 5, "mg", 0⟩ 3600000 70 25,
   combinedConcentration_superposition.2.2 ⟨"thc", "oral", 5, "mg", 7200000⟩
     3600000 70 25 (by norm_num)⟩

/-- C9: for every substance other than THC and CBD (in particular alcohol,
MDMA and psilocybin), `calculateConcentration` does not depend on the age
parameter: the age adjustment only rescales the `eliminationRate` field,
which those substances' models never read. -/
theorem calculateConcentration_age_independent (d r : String)
    (dose t W a1 a2 : ℝ) (h1 : d ≠ "thc") (h2 : d ≠ "cbd") :
    calculateConcentration dose d r t W a1 =
      calculateConcentration dose d r t W a2 := by
  by_cases hA : d = "alcohol"
  · subst hA
    by_cases hr : r = "oral"
    · subst hr
      rw [calcConc_alcohol_oral, calcConc_alcohol_oral]
    · have hnone : getDrugParams "alcohol" r = none := by simp [getDrugParams, hr]
      rw [calcConc_none _ _ hnone, calcConc_none _ _ hnone]
  · by_cases hm : d = "mdma"
    · subst hm
      by_cases hr : r = "oral"
      · subst hr
        rw [calcConc_mdma_oral, calcConc_mdma_oral, mdmaModel_ageAdjust,
          mdmaModel_ageAdjust]
      · have hnone : getDrugParams "mdma" r = none := by simp [getDrugParams, hr]
        rw [calcConc_none _ _ hnone, calcConc_none _ _ hnone]
    · by_cases hps : d = "psilocybin"
      · subst hps
        by_cases hr : r = "oral"
        · subst hr
          rw [calcConc_psilocybin_oral, calcConc_psilocybin_oral,
            psilocybinModel_ageAdjust, psilocybinModel_ageAdjust]
        · have hnone : getDrugParams "psilocybin" r = none := by
            simp [getDrugParams, hr]
          rw [calcConc_none _ _ hnone, calcConc_none _ _ hnone]
      · have hnone : getDrugParams d r = none := by
          simp [getDrugParams, hA, hm, hps, h1, h2]
        rw [calcConc_none _ _ hnone, calcConc_none _ _ hnone]

/-- Witness for C9: oral MDMA at ages 25 and 70 gives equal results. -/
theorem calculateConcentration_age_independent_witness :
    calculateConcentration 100 "mdma" "oral" 1 70 25 =
      calculateConcentration 100 "mdma" "oral" 1 70 70 :=
  calculateConcentration_age_independent "mdma" "oral" 100 1 70 25 70
    (by decide) (by decide)

/-- C2 (code bug): `oneCompartmentModel` contains no branch for ka = ke.
At parameters with equal rate constants the coefficient divides by zero
(JavaScript: `Infinity`, then `NaN` after multiplying by the vanishing
exponential difference; in this total-real-division embedding the product
collapses to 0), instead of the spec's limiting form
`(F·D·ka/Vd)·t·e^(−ka·t)`, which is strictly positive there. -/
theorem oneCompartment_ka_eq_ke_unguarded :
    oneCompartmentModel 100 ⟨0.5, 1, some 1, 2, none, none, 1, false⟩ 1 70 = 0 ∧
    0 < oneCompartmentLimitingForm 100 ⟨0.5, 1, some 1, 2, none, none, 1, false⟩
        1 70 := by
  constructor
  · simp only [oneCompartmentModel]
    rw [if_neg (by norm_num)]
    norm_num
  · simp only [oneCompartmentLimitingForm]
    rw [if_neg (by norm_num)]
    positivity

/-- C3 counterexample: the alcohol curve is NOT non-increasing on
[tmax, ∞) and does not reach the computed peak at t = tmax: at
t = tmax = 0.75 the absorption branch yields peakBAC·(1 − e⁻³) ≈ 95% of
peakBAC, while just after tmax the elimination branch restarts from
peakBAC, so the curve jumps upward across tmax. -/
theorem alcohol_upward_jump_at_tmax :
    calculateConcentration 14000 "alcohol" "oral" 0.75 82 25 <
      calculateConcentration 14000 "alcohol" "oral" 0.76 82 25 := by
  rw [calcConc_alcohol_oral, calcConc_alcohol_oral, alcoholModel_alcoholParams,
    alcoholModel_alcoholParams]
  rw [if_neg (by norm_num : ¬ (0.75 : ℝ) ≤ 0), if_pos (le_refl (0.75 : ℝ)),
    if_neg (by norm_num : ¬ (0.76 : ℝ) ≤ 0), if_neg (by norm_num : ¬ (0.76 : ℝ) ≤ 0.75)]
  have harg : (-3 * 0.75 / 0.75 : ℝ) = -3 := by norm_num
  rw [harg]
  have hmax : max 0 (14000 / 1000 * 0.85 / 14 * 30 * (82 / 82) - 15 * (0.76 - 0.75))
      = (14000 / 1000 * 0.85 / 14 * 30 * (82 / 82) - 15 * (0.76 - 0.75) : ℝ) := by
    apply max_eq_right
    norm_num
  rw [hmax]
  have h170 := exp_neg_three_gt
  nlinarith [h170]

/-- C3 amended: for the alcohol model the curve is non-decreasing on
[0, tmax] and non-increasing on (tmax, ∞), and at t = tmax it reaches
peakBAC·(1 − e⁻³) ≈ 95% of the computed peak (not the peak itself; the
curve then jumps up toward peakBAC just after tmax). -/
theorem alcoholModel_phases (dose W age t1 t2 : ℝ)
    (hdose : 0 ≤ dose) (hW : 0 < W) :
    (0 ≤ t1 → t1 ≤ t2 → t2 ≤ 0.75 →
      calculateConcentration dose "alcohol" "oral" t1 W age ≤
        calculateConcentration dose "alcohol" "oral" t2 W age) ∧
    (0.75 < t1 → t1 ≤ t2 →
      calculateConcentration dose "alcohol" "oral" t2 W age ≤
        calculateConcentration dose "alcohol" "oral" t1 W age) ∧
    calculateConcentration dose "alcohol" "oral" 0.75 W age =
      dose / 1000 * 0.85 / 14 * 30 * (82 / W) * (1 - Real.exp (-3)) := by
  have hpk : 0 ≤ dose / 1000 * 0.85 / 14 * 30 * (82 / W) := by
    have h82 : (0 : ℝ) ≤ 82 / W := le_of_lt (div_pos (by norm_num) hW)
    have : (0 : ℝ) ≤ dose / 1000 * 0.85 / 14 * 30 := by positivity
    exact mul_nonneg this h82
  refine ⟨?_, ?_, ?_⟩
  · intro h0 h12 h2max
    simp only [calcConc_alcohol_oral]
    by_cases ht1 : t1 ≤ 0
    · rw [alcoholModel_of_nonpos _ _ _ _ ht1]
      exact alcoholModel_nonneg dose _ t2 W hdose (by norm_num) (by norm_num) hW
    · have ht1' : 0 < t1 := lt_of_not_le ht1
      have ht2' : 0 < t2 := lt_of_lt_of_le ht1' h12
      rw [alcoholModel_alcoholParams, alcoholModel_alcoholParams]
      rw [if_neg (not_le.mpr ht1'), if_pos (le_trans h12 h2max),
        if_neg (not_le.mpr ht2'), if_pos h2max]
      apply mul_le_mul_of_nonneg_left _ hpk
      have hexp : Real.exp (-3 * t2 / 0.75) ≤ Real.exp (-3 * t1 / 0.75) :=
        Real.exp_le_exp.mpr ((div_le_div_iff_of_pos_right (by norm_num)).mpr (by linarith))
      linarith
  · intro h1 h12
    simp only [calcConc_alcohol_oral]
    rw [alcoholModel_alcoholParams, alcoholModel_alcoholParams]
    rw [if_neg (by linarith : ¬ t1 ≤ 0), if_neg (not_le.mpr h1),
      if_neg (by linarith : ¬ t2 ≤ 0), if_neg (by push_neg; linarith)]
    exact max_le_max (le_refl 0) (by linarith)
  · rw [calcConc_alcohol_oral, alcoholModel_alcoholParams]
    rw [if_neg (by norm_num : ¬ (0.75 : ℝ) ≤ 0), if_pos (le_refl (0.75 : ℝ))]
    norm_num

/-- Witness for C3's amended theorem: rising at 0.25 → 0.5 h, falling at
1 → 2 h, and the 95%-of-peak value at t = tmax, for 14 g ethanol / 82 kg. -/
theorem alcoholModel_phases_witness :
    calculateConcentration 14000 "alcohol" "oral" 0.25 82 25 ≤
      calculateConcentration 14000 "alcohol" "oral" 0.5 82 25 ∧
    calculateConcentration 14000 "alcohol" "oral" 2 82 25 ≤
      calculateConcentration 14000 "alcohol" "oral" 1 82 25 ∧
    calculateConcentration 14000 "alcohol" "oral" 0.75 82 25 =
      14000 / 1000 * 0.85 / 14 * 30 * (82 / 82) * (1 - Real.exp (-3)) :=
  ⟨(alcoholModel_phases 14000 82 25 0.25 0.5 (by norm_num) (by norm_num)).1
      (by norm_num) (by norm_num) (by norm_num),
   (alcoholModel_phases 14000 82 25 1 2 (by norm_num) (by norm_num)).2.1
      (by norm_num) (by norm_num),
   (alcoholModel_phases 14000 82 25 0 0 (by norm_num) (by norm_num)).2.2⟩

/-- C4 counterexample: for 150 mg oral MDMA, 70 kg, age 25, the value at
t = tmax = 2 h is below 183 ng/mL — not within any small tolerance of
300 ng/mL, and below the pinned peak (dose·F/100)·200 = 225 ng/mL. -/
theorem mdma_at_tmax_not_300 :
    calculateConcentration 150 "mdma" "oral" 2 70 25 < 183 := by
  rw [calcConc_mdma_oral, mdmaModel_ageAdjust, mdmaModel_mdmaParams]
  rw [if_neg (by norm_num : ¬ (2 : ℝ) ≤ 0)]
  apply max_lt (by norm_num)
  have harg1 : (-(0.693 / 8) * 2 : ℝ) = -0.17325 := by norm_num
  have harg2 : (-(3 / 2) * 2 : ℝ) = -3 := by norm_num
  rw [harg1, harg2]
  have hc : (150 * 0.75 / 100 * 200 * (70 / 70) / (3 / 2 / (3 / 2 - 0.693 / 8)) : ℝ)
      = 212.00625 := by norm_num
  rw [hc]
  have h1 : Real.exp (-(0.17325 : ℝ)) ≤ 1 / 1.17325 := by
    rw [Real.exp_neg, one_div]
    apply inv_anti₀ (by norm_num)
    linarith [Real.add_one_le_exp (0.17325 : ℝ)]
  have h2 : (0 : ℝ) < Real.exp (-3) := Real.exp_pos _
  nlinarith [h1, h2]

/-- C4 amended: at t = tmax the Model C value equals
212.00625·(e^(−0.17325) − e^(−3)) ≈ 167.7 ng/mL (shown: between 120 and
183), where 225 = (150·0.75/100)·200 is the pinned peak including the
bioavailability factor; and the curve stays strictly below the pinned
peak 225 at every time, because the normalizing constant ka/(ka−ke)
exceeds the true maximum of the exponential-difference term. -/
theorem mdma_peak_value :
    calculateConcentration 150 "mdma" "oral" 2 70 25 =
      212.00625 * (Real.exp (-0.17325) - Real.exp (-3)) ∧
    120 < calculateConcentration 150 "mdma" "oral" 2 70 25 ∧
    ∀ t : ℝ, calculateConcentration 150 "mdma" "oral" t 70 25 < 225 := by
  have harg1 : (-(0.693 / 8) * 2 : ℝ) = -0.17325 := by norm_num
  have harg2 : (-(3 / 2) * 2 : ℝ) = -3 := by norm_num
  have hc : (150 * 0.75 / 100 * 200 * (70 / 70) / (3 / 2 / (3 / 2 - 0.693 / 8)) : ℝ)
      = 212.00625 := by norm_num
  have hval : calculateConcentration 150 "mdma" "oral" 2 70 25 =
      212.00625 * (Real.exp (-0.17325) - Real.exp (-3)) := by
    rw [calcConc_mdma_oral, mdmaModel_ageAdjust, mdmaModel_mdmaParams]
    rw [if_neg (by norm_num : ¬ (2 : ℝ) ≤ 0), harg1, harg2, hc]
    apply max_eq_right
    have : Real.exp (-3) < Real.exp (-0.17325) := Real.exp_lt_exp.mpr (by norm_num)
    nlinarith [this]
  have hlow : (120 : ℝ) < 212.00625 * (Real.exp (-0.17325) - Real.exp (-3)) := by
    have h1 : (1 : ℝ) - 0.17325 ≤ Real.exp (-0.17325) := by
      linarith [Real.add_one_le_exp (-0.17325 : ℝ)]
    linarith [exp_neg_three_le]
  refine ⟨hval, by rw [hval]; exact hlow, ?_⟩
  intro t
  rw [calcConc_mdma_oral, mdmaModel_ageAdjust, mdmaModel_mdmaParams]
  by_cases ht : t ≤ 0
  · rw [if_pos ht]
    norm_num
  · rw [if_neg ht, hc]
    apply max_lt (by norm_num)
    have ht' : 0 < t := lt_of_not_le ht
    have he1 : Real.exp (-(0.693 / 8) * t) < 1 := by
      rw [Real.exp_lt_one_iff]
      nlinarith
    have he2 : 0 < Real.exp (-(3 / 2) * t) := Real.exp_pos _
    nlinarith [he1, he2]

end DrugApp
